import Mathlib

set_option maxHeartbeats 1600000

/-!
Shallow embedding of the logtor logging facade (Go) and proofs about it.

The embedding follows the Go sources:
  * types/types.go   : severity levels and the acceptance test
  * logtor.go        : the Logtor registry and its dispatch operations
  * handler.go       : the HTTP control-surface handlers (state/response part)

Go `type LogLevel string` and `type LogCreatorName string` are string types,
so levels and names are modelled as `String`; the seven defined levels are
the constants below.  Go maps are modelled as association lists with
insert-replaces-by-key semantics; a Go `nil` interface value is `Option.none`;
a Go runtime panic (nil-interface method call, index out of range) is
modelled by an operation returning `Option.none` instead of a result.
-/

-- types/types.go: the LogLevel constants
def NONE : String := "NONE"

def FATAL : String := "FATAL"

def ERROR : String := "ERROR"

def WARN : String := "WARN"

def DEBUG : String := "DEBUG"

def INFO : String := "INFO"

def TRACE : String := "TRACE"

-- types/types.go: var LogLevelList = []LogLevel{NONE, FATAL, ERROR, WARN, DEBUG, INFO, TRACE}
def LogLevelList : List String := [NONE, FATAL, ERROR, WARN, DEBUG, INFO, TRACE]

/-- Embedding of `types.IsLogLevelAcceptable(selected, using LogLevel) bool`
(types/types.go).  The Go `switch selected` with string cases is an
equality-directed branch; each case returns whether `using` is in the fixed
set of levels listed in that case's `if`. -/
def IsLogLevelAcceptable (selected usingLevel : String) : Bool :=
  if selected = FATAL then
    usingLevel == FATAL
  else if selected = ERROR then
    usingLevel == FATAL || usingLevel == ERROR
  else if selected = WARN then
    usingLevel == FATAL || usingLevel == ERROR || usingLevel == WARN
  else if selected = DEBUG then
    usingLevel == FATAL || usingLevel == ERROR || usingLevel == WARN || usingLevel == DEBUG
  else if selected = INFO then
    usingLevel == FATAL || usingLevel == ERROR || usingLevel == WARN || usingLevel == DEBUG ||
      usingLevel == INFO
  else if selected = TRACE then
    usingLevel == FATAL || usingLevel == ERROR || usingLevel == WARN || usingLevel == DEBUG ||
      usingLevel == INFO || usingLevel == TRACE
  else
    false

/-- Rank function written from the specification's words (for the refinement
comparison in C1): the six record levels are mapped to FATAL=1, ERROR=2,
WARN=3, DEBUG=4, INFO=5, TRACE=6, and every other value (including NONE) has
no rank. -/
def specRank (level : String) : Option Nat :=
  if level = FATAL then some 1
  else if level = ERROR then some 2
  else if level = WARN then some 3
  else if level = DEBUG then some 4
  else if level = INFO then some 5
  else if level = TRACE then some 6
  else none
/-- Abstract model of the `LogCreator` interface (logcreator.go): a sink is
characterized by its name (`LogName`), its readiness (`IsReady`), and the
results of its two write methods (`LogIt`, `LogItWithCallDepth`).  Record
payloads (Go `interface\x7b\x7d`) are opaque to the dispatcher and modelled
as `String`. -/
structure LogCreator where
  logName : String
  isReady : Bool
  logIt : String → String → Bool
  logItWithCallDepth : String → Int → String → Bool

/-- One invocation of a sink's write method, recorded for effect tracking:
which sink received the record, at which level, with which message. -/
structure SinkCall where
  sink : String
  level : String
  message : String
  deriving DecidableEq

/-- Association-list lookup, modelling Go map indexing `m[k]`. -/
def assocLookup {β : Type} (m : List (String × β)) (k : String) : Option β :=
  match m with
  | [] => none
  | (k', v) :: rest => if k' = k then some v else assocLookup rest k

/-- Association-list insert, modelling Go map assignment `m[k] = v`: replaces
the entry for `k` when present, otherwise appends a new entry. -/
def assocInsert {β : Type} (m : List (String × β)) (k : String) (v : β) :
    List (String × β) :=
  match m with
  | [] => [(k, v)]
  | (k', v') :: rest => if k' = k then (k, v) :: rest else (k', v') :: assocInsert rest k v

/-- Embedding of the `Logtor` struct (logtor.go): the sink mapping
`logCreatorList`, the global threshold `logLevel`, the active sink
`currentLogCreator` (Go nil interface = `none`), and the fallback sink
`defaultCreator`.  The `changeMutex` field is a lock and carries no data; its
acquisition pattern is modelled separately below (`sectionsOf`). -/
structure Logtor where
  logCreatorList : List (String × LogCreator)
  logLevel : String
  currentLogCreator : Option LogCreator
  defaultCreator : Option LogCreator

/-- Embedding of `New()` (logtor.go): empty mapping, threshold NONE, no
active sink; the `defaultCreator` field starts at its zero value (nil). -/
def Logtor.New : Logtor :=
  { logCreatorList := [], logLevel := NONE, currentLogCreator := none,
    defaultCreator := none }

/-- Embedding of `WithDefaultCreator` (logtor.go): sets the fallback sink. -/
def Logtor.WithDefaultCreator (l : Logtor) (creator : LogCreator) : Logtor :=
  { l with defaultCreator := some creator }

/-- Modelled from the spec: the method `LogLevel.IsValid` is called by
`SetLogLevel` (logtor.go) but its definition is not among the provided
sources; §4.1 defines `isValid(level)` as true iff the level is one of the
seven defined constants (the members of `LogLevelList`). -/
def LogLevel.IsValid (level : String) : Bool :=
  LogLevelList.contains level

/-- Embedding of `SetLogLevel` (logtor.go): sets the threshold and returns
true when the level is valid, otherwise leaves the state unchanged and
returns false. -/
def Logtor.SetLogLevel (l : Logtor) (logLevel : String) : Logtor × Bool :=
  if LogLevel.IsValid logLevel then ({ l with logLevel := logLevel }, true)
  else (l, false)

/-- Embedding of `ChangeLogCreator` (logtor.go): if the name is absent from
the mapping return false without change, otherwise make the mapped sink the
active one and return true. -/
def Logtor.ChangeLogCreator (l : Logtor) (logCreatorName : String) : Logtor × Bool :=
  match assocLookup l.logCreatorList logCreatorName with
  | none => (l, false)
  | some c => ({ l with currentLogCreator := some c }, true)

/-- Embedding of `LogIt` (logtor.go).  The receiver method
`LogLevel.IsLogLevelAcceptable` used in its conditions is not among the
provided sources and is modelled from the spec (§4.1 defines a single
acceptance test) as the free function `IsLogLevelAcceptable` of
types/types.go.  Go's `&&` short-circuits, so `currentLogCreator.IsReady()`
is only evaluated when the level is accepted; a nil active sink is then a
nil-interface method call, a runtime panic, modelled as result `none`.  The
successful result pairs the sink's boolean write result with the list of
sink invocations performed. -/
def Logtor.LogIt (l : Logtor) (level : String) (logMessage : String) :
    Option (Bool × List SinkCall) :=
  if IsLogLevelAcceptable l.logLevel level then
    match l.currentLogCreator with
    | none => none
    | some c =>
      if c.isReady then
        some (c.logIt level logMessage, [⟨c.logName, level, logMessage⟩])
      else
        match l.defaultCreator with
        | some d => some (d.logIt level logMessage, [⟨d.logName, level, logMessage⟩])
        | none => some (false, [])
  else
    some (false, [])

/-- Embedding of `LogItWithCallDepth` (logtor.go): same dispatch as `LogIt`
(the first condition uses the free function `types.IsLogLevelAcceptable` on
`l.LogLevel()`, the second the receiver method on `l.logLevel`; both are the
same acceptance test on the same threshold), with the explicit call depth
passed through to the sink. -/
def Logtor.LogItWithCallDepth (l : Logtor) (level : String) (callDepth : Int)
    (logMessage : String) : Option (Bool × List SinkCall) :=
  if IsLogLevelAcceptable l.logLevel level then
    match l.currentLogCreator with
    | none => none
    | some c =>
      if c.isReady then
        some (c.logItWithCallDepth level callDepth logMessage,
          [⟨c.logName, level, logMessage⟩])
      else
        match l.defaultCreator with
        | some d =>
          some (d.logItWithCallDepth level callDepth logMessage,
            [⟨d.logName, level, logMessage⟩])
        | none => some (false, [])
  else
    some (false, [])

/-- Embedding of the registration loop of `AddLogCreators` (logtor.go): the
batch is a Go variadic slice whose elements may be nil (`none`); each non-nil
sink is inserted into the mapping keyed by its name (the `reflect` check also
skips typed-nil values, likewise `none` here). -/
def Logtor.addBatch (m : List (String × LogCreator))
    (logCreators : List (Option LogCreator)) : List (String × LogCreator) :=
  logCreators.foldl
    (fun acc oc => match oc with
      | some c => assocInsert acc c.logName c
      | none => acc)
    m

/-- Embedding of `AddLogCreators` (logtor.go): the mapping update is
`Logtor.addBatch` above.  Afterwards, if no sink is active, the code
evaluates `logCreators[0].LogName()` unconditionally: on an empty batch this
indexes out of range, and on a nil first element it is a nil-interface
method call — both runtime panics, modelled as result `none`. -/
def Logtor.AddLogCreators (l : Logtor) (logCreators : List (Option LogCreator)) :
    Option Logtor :=
  let l' : Logtor := { l with logCreatorList := Logtor.addBatch l.logCreatorList logCreators }
  if l'.currentLogCreator.isNone then
    match logCreators.head? with
    | none => none
    | some none => none
    | some (some c) => some (l'.ChangeLogCreator c.logName).1
  else
    some l'

/-- Reference console sink for concrete instances: always ready, both write
methods report success (creators/basecreator.go always returns true). -/
def consoleSink : LogCreator :=
  { logName := "Console", isReady := true, logIt := fun _ _ => true,
    logItWithCallDepth := fun _ _ _ => true }

/-- Reference file sink for concrete instances: always ready, writes report
success (creators/filerecorder.go always returns true). -/
def fileSink : LogCreator :=
  { logName := "File", isReady := true, logIt := fun _ _ => true,
    logItWithCallDepth := fun _ _ _ => true }

/-- Reference not-ready sink for concrete instances: a broker-backed sink
whose transport failed to initialize reports not ready; its write methods
would report success. -/
def downBrokerSink : LogCreator :=
  { logName := "Broker", isReady := false, logIt := fun _ _ => true,
    logItWithCallDepth := fun _ _ _ => true }
/-- A second sink that reuses the name "Console" but is distinguishable from
`consoleSink` (it reports not ready): used to exercise duplicate-name
batches, where the last-registered sink with a given name replaces any prior
one. -/
def consoleDownSink : LogCreator :=
  { logName := "Console", isReady := false, logIt := fun _ _ => true,
    logItWithCallDepth := fun _ _ _ => true }

/-- Outcome of the change-active-sink control operation: HTTP 404, HTTP 400,
or HTTP 200 carrying the old and current active-sink names. -/
inductive HandlerResult where
  | notFound
  | badRequest
  | ok (oldName currentName : String)
  deriving DecidableEq

/-- Embedding of the handler `ChangeActiveLogCreator` (handler.go): its
state change and response.  The HTTP request is abstracted to its method and
its decoded JSON body (`none` models a body that fails to decode).  404 when
the mapping is empty; 400 on a non-POST method or an undecodable or empty
payload.  Reading the active sink's name on a registry with sinks but no
active sink would be a nil-interface method call (panic, modelled `none`).
When the payload carries a "log_creator" key the handler calls
`ChangeLogCreator` (briefly dropping and reacquiring the read lock) and
reports the requested name on success or the old name on failure; without
the key the reported current name stays the Go zero value "". -/
def Logtor.ChangeActiveLogCreator (l : Logtor) (method : String)
    (payload : Option (List (String × String))) : Option (Logtor × HandlerResult) :=
  if l.logCreatorList.isEmpty then some (l, HandlerResult.notFound)
  else if method ≠ "POST" then some (l, HandlerResult.badRequest)
  else
    match payload with
    | none => some (l, HandlerResult.badRequest)
    | some p =>
      if p.isEmpty then some (l, HandlerResult.badRequest)
      else
        match l.currentLogCreator with
        | none => none
        | some a =>
          match assocLookup p "log_creator" with
          | some v =>
            match l.ChangeLogCreator v with
            | (l2, okFlag) =>
              some (l2, HandlerResult.ok a.logName (if okFlag then v else a.logName))
          | none => some (l, HandlerResult.ok a.logName "")
/-- Lock acquisition mode on the Logtor changeMutex (a sync.RWMutex). -/
inductive LockMode where
  | noLock
  | readLock
  | writeLock
  deriving DecidableEq

/-- A region of straight-line code inside one registry operation: the lock
mode it holds on changeMutex, and which of the two contended fields — the
active-sink reference `currentLogCreator` and the mapping `logCreatorList` —
it reads or writes there. -/
structure CriticalSection where
  lock : LockMode
  readsActive : Bool
  writesActive : Bool
  readsMapping : Bool
  writesMapping : Bool
  deriving DecidableEq

/-- The registry operations named by the concurrency discipline of the
claim. -/
inductive RegistryOp where
  | logIt
  | logItWithCallDepth
  | changeLogCreator
  | addLogCreators
  deriving DecidableEq

/-- Static transcription of the lock and access pattern of each operation
(logtor.go).  `LogIt` and `LogItWithCallDepth` read `currentLogCreator` (and
the threshold) while holding no lock at all.  `ChangeLogCreator` holds
`changeMutex.RLock` — the shared read lock — while it reads the mapping and
writes `currentLogCreator`.  `AddLogCreators` holds the exclusive lock while
writing the mapping, releases it, reads `currentLogCreator` with no lock,
and then calls `ChangeLogCreator`, which writes it under the read lock. -/
def sectionsOf : RegistryOp → List CriticalSection
  | RegistryOp.logIt => [⟨LockMode.noLock, true, false, false, false⟩]
  | RegistryOp.logItWithCallDepth => [⟨LockMode.noLock, true, false, false, false⟩]
  | RegistryOp.changeLogCreator => [⟨LockMode.readLock, false, true, true, false⟩]
  | RegistryOp.addLogCreators =>
      [⟨LockMode.writeLock, false, false, true, true⟩,
       ⟨LockMode.noLock, true, false, false, false⟩,
       ⟨LockMode.readLock, false, true, true, false⟩]

/-- Two sections have conflicting accesses when one writes a field that the
other reads or writes. -/
def conflicts (s1 s2 : CriticalSection) : Bool :=
  (s1.writesActive && (s2.readsActive || s2.writesActive)) ||
  (s2.writesActive && (s1.readsActive || s1.writesActive)) ||
  (s1.writesMapping && (s2.readsMapping || s2.writesMapping)) ||
  (s2.writesMapping && (s1.readsMapping || s1.writesMapping))

/-- An RWMutex keeps two sections from running concurrently exactly when one
of them holds the write lock and the other holds the lock in some mode; code
that takes no lock is never excluded. -/
def mutuallyExcluded (s1 s2 : CriticalSection) : Bool :=
  (s1.lock == LockMode.writeLock && !(s2.lock == LockMode.noLock)) ||
  (s2.lock == LockMode.writeLock && !(s1.lock == LockMode.noLock))

/-- Two operations are race free when every pair of conflicting sections,
one from each, is mutually excluded by the lock. -/
def raceFree (op1 op2 : RegistryOp) : Bool :=
  (sectionsOf op1).all fun s1 =>
    (sectionsOf op2).all fun s2 => !(conflicts s1 s2) || mutuallyExcluded s1 s2
lemma assocLookup_assocInsert_self {β : Type} (m : List (String × β)) (k : String)
    (v : β) : assocLookup (assocInsert m k v) k = some v := by
  induction m with
  | nil => simp [assocInsert, assocLookup]
  | cons hd tl ih =>
    obtain ⟨k0, v0⟩ := hd
    by_cases h : k0 = k
    · simp [assocInsert, assocLookup, h]
    · simp [assocInsert, assocLookup, h, ih]

lemma assocLookup_assocInsert_ne {β : Type} (m : List (String × β)) (k k' : String)
    (v : β) (h : k' ≠ k) : assocLookup (assocInsert m k' v) k = assocLookup m k := by
  induction m with
  | nil => simp [assocInsert, assocLookup, h]
  | cons hd tl ih =>
    obtain ⟨k0, v0⟩ := hd
    by_cases h0 : k0 = k'
    · simp [assocInsert, assocLookup, h0, h]
    · simp only [assocInsert, assocLookup, if_neg h0]
      by_cases h1 : k0 = k
      · simp [assocLookup, h1]
      · simp [assocLookup, h1, ih]

lemma assocLookup_addBatch_skip (batch : List (Option LogCreator))
    (m : List (String × LogCreator)) (k : String)
    (h : ∀ oc ∈ batch, ∀ c : LogCreator, oc = some c → c.logName ≠ k) :
    assocLookup (Logtor.addBatch m batch) k = assocLookup m k := by
  induction batch generalizing m with
  | nil => simp [Logtor.addBatch]
  | cons hd tl ih =>
    have hhd := h hd (List.mem_cons_self hd tl)
    have htl : ∀ oc ∈ tl, ∀ c : LogCreator, oc = some c → c.logName ≠ k := by
      intro oc hoc c hc
      exact h oc (List.mem_cons_of_mem hd hoc) c hc
    cases hd with
    | none => simpa [Logtor.addBatch, List.foldl_cons] using ih m htl
    | some c =>
      have hc : c.logName ≠ k := hhd c rfl
      have := ih (assocInsert m c.logName c) htl
      simpa [Logtor.addBatch, List.foldl_cons, assocLookup_assocInsert_ne m k c.logName c hc]
        using this
/-- C1: IsLogLevelAcceptable T L holds iff both T and L have a rank (under
FATAL=1 .. TRACE=6) and rank L is at most rank T; and with threshold NONE
every candidate is rejected. -/
theorem isLogLevelAcceptable_iff_rank_le :
    (∀ T L : String, IsLogLevelAcceptable T L = true ↔
      ∃ a b : Nat, specRank L = some a ∧ specRank T = some b ∧ a ≤ b) ∧
    (∀ L : String, IsLogLevelAcceptable NONE L = false) := by
  constructor
  · intro T L
    simp only [IsLogLevelAcceptable, specRank]
    split_ifs <;> simp_all [FATAL, ERROR, WARN, DEBUG, INFO, TRACE, NONE]
  · intro L
    simp [IsLogLevelAcceptable, FATAL, ERROR, WARN, DEBUG, INFO, TRACE, NONE]
/-- C2: with an active sink set and the level accepted at the threshold, the
dispatch (both `LogIt` and `LogItWithCallDepth`) delivers the record to the
active sink and returns its write result when the active sink is ready;
delivers it to the configured fallback sink only (a single sink invocation,
never both) and returns the fallback's result when the active sink is not
ready; and returns false with no delivery when the active sink is not ready
and no fallback is configured. -/
theorem logIt_routes_by_readiness (l : Logtor) (c : LogCreator) (level : String)
    (callDepth : Int) (msg : String)
    (hc : l.currentLogCreator = some c)
    (hacc : IsLogLevelAcceptable l.logLevel level = true) :
    (c.isReady = true →
      l.LogIt level msg = some (c.logIt level msg, [⟨c.logName, level, msg⟩]) ∧
      l.LogItWithCallDepth level callDepth msg =
        some (c.logItWithCallDepth level callDepth msg, [⟨c.logName, level, msg⟩])) ∧
    (∀ d : LogCreator, c.isReady = false → l.defaultCreator = some d →
      l.LogIt level msg = some (d.logIt level msg, [⟨d.logName, level, msg⟩]) ∧
      l.LogItWithCallDepth level callDepth msg =
        some (d.logItWithCallDepth level callDepth msg, [⟨d.logName, level, msg⟩])) ∧
    (c.isReady = false → l.defaultCreator = none →
      l.LogIt level msg = some (false, []) ∧
      l.LogItWithCallDepth level callDepth msg = some (false, [])) := by
  refine ⟨?_, ?_, ?_⟩
  · intro hr
    constructor <;> simp [Logtor.LogIt, Logtor.LogItWithCallDepth, hc, hacc, hr]
  · intro d hr hd
    constructor <;> simp [Logtor.LogIt, Logtor.LogItWithCallDepth, hc, hacc, hr, hd]
  · intro hr hd
    constructor <;> simp [Logtor.LogIt, Logtor.LogItWithCallDepth, hc, hacc, hr, hd]

/-- Witness for C2: three concrete registries exercising the three cases of
`logIt_routes_by_readiness` — ready active sink, not-ready active sink with
fallback, not-ready active sink without fallback. -/
theorem logIt_routes_by_readiness_witness :
    (Logtor.mk [("Console", consoleSink)] TRACE (some consoleSink) none).LogIt
        INFO "m" = some (true, [⟨"Console", INFO, "m"⟩]) ∧
    (Logtor.mk [("Broker", downBrokerSink)] TRACE (some downBrokerSink)
        (some consoleSink)).LogIt INFO "m" = some (true, [⟨"Console", INFO, "m"⟩]) ∧
    (Logtor.mk [("Broker", downBrokerSink)] TRACE (some downBrokerSink)
        none).LogIt INFO "m" = some (false, []) := by
  refine ⟨?_, ?_, ?_⟩
  · exact ((logIt_routes_by_readiness
      (Logtor.mk [("Console", consoleSink)] TRACE (some consoleSink) none)
      consoleSink INFO 3 "m" rfl (by decide)).1 rfl).1
  · exact ((logIt_routes_by_readiness
      (Logtor.mk [("Broker", downBrokerSink)] TRACE (some downBrokerSink)
        (some consoleSink))
      downBrokerSink INFO 3 "m" rfl (by decide)).2.1 consoleSink rfl rfl).1
  · exact ((logIt_routes_by_readiness
      (Logtor.mk [("Broker", downBrokerSink)] TRACE (some downBrokerSink) none)
      downBrokerSink INFO 3 "m" rfl (by decide)).2.2 rfl rfl).1

/-- C3: with an active sink set but the level not accepted at the threshold,
both dispatch forms return false and perform no sink invocation at all —
neither the active sink nor the fallback receives the record. -/
theorem logIt_rejected_level_no_sink_call (l : Logtor) (c : LogCreator)
    (level : String) (callDepth : Int) (msg : String)
    (_hc : l.currentLogCreator = some c)
    (hacc : IsLogLevelAcceptable l.logLevel level = false) :
    l.LogIt level msg = some (false, []) ∧
    l.LogItWithCallDepth level callDepth msg = some (false, []) := by
  constructor <;> simp [Logtor.LogIt, Logtor.LogItWithCallDepth, hacc]

/-- Witness for C3: threshold FATAL, level ERROR, active ready sink and a
configured fallback — the result is false and the recorded invocation list
is empty. -/
theorem logIt_rejected_level_no_sink_call_witness :
    (Logtor.mk [("Console", consoleSink)] FATAL (some consoleSink)
        (some downBrokerSink)).LogIt ERROR "m" = some (false, []) ∧
    (Logtor.mk [("Console", consoleSink)] FATAL (some consoleSink)
        (some downBrokerSink)).LogItWithCallDepth ERROR 3 "m" = some (false, []) :=
  logIt_rejected_level_no_sink_call
    (Logtor.mk [("Console", consoleSink)] FATAL (some consoleSink)
      (some downBrokerSink))
    consoleSink ERROR 3 "m" rfl (by decide)

/-- C4 counterexample: the claim says `LogIt` on a registry with no active
sink returns false for every threshold; but after `SetLogLevel(TRACE)` on a
fresh registry (active sink still unset), `LogIt(INFO, ...)` evaluates
`currentLogCreator.IsReady()` on a nil interface — a runtime panic, modelled
as `none` — and in particular does not complete with result false. -/
theorem logIt_unset_sink_counterexample :
    ((Logtor.New.SetLogLevel TRACE).1.LogIt INFO "m" = none) ∧
    ∀ calls : List SinkCall,
      ¬ ((Logtor.New.SetLogLevel TRACE).1.LogIt INFO "m" = some (false, calls)) := by
  have hnone : (Logtor.New.SetLogLevel TRACE).1.LogIt INFO "m" = none := rfl
  refine ⟨hnone, ?_⟩
  intro calls h
  rw [hnone] at h
  exact Option.noConfusion h

/-- C4 amended: on a registry whose active sink is unset, `LogIt` returns
false (completing normally, with no sink invoked) exactly when the threshold
does not accept the level — in particular for every level in the initial
state, where the threshold is NONE; when the threshold accepts the level,
the call dereferences the unset active sink (runtime panic, modelled as
`none`) instead of returning false. -/
theorem logIt_unset_sink_amended (l : Logtor) (level msg : String)
    (hcur : l.currentLogCreator = none) :
    (IsLogLevelAcceptable l.logLevel level = false →
      l.LogIt level msg = some (false, [])) ∧
    (IsLogLevelAcceptable l.logLevel level = true →
      l.LogIt level msg = none) := by
  constructor
  · intro hacc
    simp [Logtor.LogIt, hacc]
  · intro hacc
    simp [Logtor.LogIt, hacc, hcur]

/-- Witness for the amended C4: on the fresh registry (threshold NONE) every
level is rejected and `LogIt` returns false normally; once the threshold is
TRACE, `LogIt(INFO, ...)` with the active sink still unset panics. -/
theorem logIt_unset_sink_amended_witness :
    (Logtor.New.LogIt INFO "m" = some (false, [])) ∧
    ((Logtor.New.SetLogLevel TRACE).1.LogIt INFO "n" = none) :=
  ⟨(logIt_unset_sink_amended Logtor.New INFO "m" rfl).1 (by decide),
   (logIt_unset_sink_amended (Logtor.New.SetLogLevel TRACE).1 INFO "n" rfl).2 (by decide)⟩

/-- C10: a candidate value that is none of the six record levels — NONE
included, and any undefined string — is rejected by `IsLogLevelAcceptable`
at every threshold, so `LogIt` and `LogItWithCallDepth` with such a level
return false with no sink invocation on every registry, whatever its
threshold, active sink, and fallback. -/
theorem undefined_level_always_rejected (U : String)
    (hU : U ∉ [FATAL, ERROR, WARN, DEBUG, INFO, TRACE]) :
    (∀ T : String, IsLogLevelAcceptable T U = false) ∧
    (∀ (l : Logtor) (msg : String) (callDepth : Int),
      l.LogIt U msg = some (false, []) ∧
      l.LogItWithCallDepth U callDepth msg = some (false, [])) := by
  have hrej : ∀ T : String, IsLogLevelAcceptable T U = false := by
    intro T
    simp only [List.mem_cons, List.not_mem_nil, or_false] at hU
    push_neg at hU
    obtain ⟨h1, h2, h3, h4, h5, h6⟩ := hU
    simp only [IsLogLevelAcceptable]
    split_ifs <;> simp [h1, h2, h3, h4, h5, h6]
  refine ⟨hrej, ?_⟩
  intro l msg callDepth
  constructor <;> simp [Logtor.LogIt, Logtor.LogItWithCallDepth, hrej l.logLevel]

/-- Witness for C10: the value NONE and the undefined string "VERBOSE" are
rejected at threshold TRACE, and dispatching them on concrete registries
(with and without an active sink) returns false without any sink call. -/
theorem undefined_level_always_rejected_witness :
    IsLogLevelAcceptable TRACE NONE = false ∧
    IsLogLevelAcceptable TRACE "VERBOSE" = false ∧
    (Logtor.mk [("Console", consoleSink)] TRACE (some consoleSink) none).LogIt
      NONE "m" = some (false, []) ∧
    Logtor.New.LogIt "VERBOSE" "m" = some (false, []) := by
  refine ⟨?_, ?_, ?_, ?_⟩
  · exact (undefined_level_always_rejected NONE (by decide)).1 TRACE
  · exact (undefined_level_always_rejected "VERBOSE" (by decide)).1 TRACE
  · exact ((undefined_level_always_rejected NONE (by decide)).2
      (Logtor.mk [("Console", consoleSink)] TRACE (some consoleSink) none) "m" 3).1
  · exact ((undefined_level_always_rejected "VERBOSE" (by decide)).2 Logtor.New "m" 3).1
/-- C5 (code bug): registering an empty batch, or a batch of only nil sinks,
on a registry with no active sink does not complete normally: with no active
sink, `AddLogCreators` unconditionally evaluates `logCreators[0].LogName()`,
an index out of range on the empty batch and a nil-interface method call on
a nil first element — a runtime panic either way (result `none`).  With an
active sink already set, the same batches are accepted as no-ops for the
mapping, which is the behaviour the claim describes. -/
theorem addLogCreators_empty_or_nil_batch :
    Logtor.New.AddLogCreators [] = none ∧
    Logtor.New.AddLogCreators [none, none] = none ∧
    (Logtor.mk [("Console", consoleSink)] NONE (some consoleSink) none).AddLogCreators []
      = some (Logtor.mk [("Console", consoleSink)] NONE (some consoleSink) none) ∧
    (Logtor.mk [("Console", consoleSink)] NONE (some consoleSink) none).AddLogCreators
        [none, none]
      = some (Logtor.mk [("Console", consoleSink)] NONE (some consoleSink) none) :=
  ⟨rfl, rfl, rfl, rfl⟩
/-- C6 counterexample: the claim says the first sink of the batch becomes
active, but activation happens by name lookup after the whole batch is
inserted, so with a batch of two sinks sharing the name "Console" the second
one becomes active: the resulting active sink is not the first sink of the
batch. -/
theorem addLogCreators_first_sink_counterexample :
    Logtor.New.AddLogCreators [some consoleSink, some consoleDownSink] =
      some (Logtor.mk [("Console", consoleDownSink)] NONE (some consoleDownSink)
        none) ∧
    ¬ ((some consoleDownSink : Option LogCreator) = some consoleSink) := by
  constructor
  · rfl
  · intro h
    have hready := congrArg LogCreator.isReady (Option.some.inj h)
    simp [consoleSink, consoleDownSink] at hready

/-- C6 amended: when no sink is active, registering a batch whose first
element is a (non-nil) sink makes that first sink active whenever no later
batch element reuses its name (in particular for batches of distinct names,
such as [A, B, C]); when some sink is already active, registration leaves
the active sink unchanged whatever the batch. -/
theorem addLogCreators_active_selection :
    (∀ (l : Logtor) (c0 : LogCreator) (rest : List (Option LogCreator)),
      l.currentLogCreator = none →
      (∀ oc ∈ rest, ∀ c : LogCreator, oc = some c → c.logName ≠ c0.logName) →
      ∃ l' : Logtor, l.AddLogCreators (some c0 :: rest) = some l' ∧
        l'.currentLogCreator = some c0) ∧
    (∀ (l : Logtor) (a : LogCreator) (batch : List (Option LogCreator)),
      l.currentLogCreator = some a →
      ∃ l' : Logtor, l.AddLogCreators batch = some l' ∧
        l'.currentLogCreator = some a) := by
  constructor
  · intro l c0 rest hcur hname
    have hlook : assocLookup (Logtor.addBatch l.logCreatorList (some c0 :: rest))
        c0.logName = some c0 := by
      have hstep : Logtor.addBatch l.logCreatorList (some c0 :: rest) =
          Logtor.addBatch (assocInsert l.logCreatorList c0.logName c0) rest := by
        simp [Logtor.addBatch, List.foldl_cons]
      rw [hstep, assocLookup_addBatch_skip rest _ _ hname,
        assocLookup_assocInsert_self]
    refine ⟨{ l with
        logCreatorList := Logtor.addBatch l.logCreatorList (some c0 :: rest),
        currentLogCreator := some c0 }, ?_, rfl⟩
    simp only [Logtor.AddLogCreators, hcur, Option.isNone_none, if_true,
      List.head?_cons, Logtor.ChangeLogCreator, hlook]
  · intro l a batch hcur
    refine ⟨{ l with logCreatorList := Logtor.addBatch l.logCreatorList batch }, ?_, ?_⟩
    · simp [Logtor.AddLogCreators, hcur]
    · simp [hcur]

/-- Witness for C6: registering [Console, File] on the fresh registry makes
Console active, and registering [File] while Console is active keeps Console
active. -/
theorem addLogCreators_active_selection_witness :
    (∃ l' : Logtor,
      Logtor.New.AddLogCreators [some consoleSink, some fileSink] = some l' ∧
      l'.currentLogCreator = some consoleSink) ∧
    (∃ l' : Logtor,
      (Logtor.mk [("Console", consoleSink)] NONE (some consoleSink)
        none).AddLogCreators [some fileSink] = some l' ∧
      l'.currentLogCreator = some consoleSink) := by
  constructor
  · refine addLogCreators_active_selection.1 Logtor.New consoleSink [some fileSink]
      rfl ?_
    intro oc hoc c hceq
    rw [List.mem_singleton] at hoc
    subst hoc
    injection hceq with h
    subst h
    decide
  · exact addLogCreators_active_selection.2
      (Logtor.mk [("Console", consoleSink)] NONE (some consoleSink) none)
      consoleSink [some fileSink] rfl
/-- C7: `SetLogLevel` rejects every value that is not one of the seven
defined levels, returning false with the registry unchanged, and accepts
each of the seven, storing it and returning true. -/
theorem setLogLevel_valid_levels_only (l : Logtor) (S : String) :
    (S ∉ LogLevelList → l.SetLogLevel S = (l, false)) ∧
    (S ∈ LogLevelList → l.SetLogLevel S = ({ l with logLevel := S }, true)) := by
  constructor
  · intro h
    have hv : LogLevel.IsValid S = false := by
      simp only [LogLevel.IsValid]
      simpa using h
    simp [Logtor.SetLogLevel, hv]
  · intro h
    have hv : LogLevel.IsValid S = true := by
      simp only [LogLevel.IsValid]
      simpa using h
    simp [Logtor.SetLogLevel, hv]

/-- Witness for C7: the undefined string "VERBOSE" is rejected without
changing the stored threshold, and the defined level ERROR is stored with
result true. -/
theorem setLogLevel_valid_levels_only_witness :
    Logtor.New.SetLogLevel "VERBOSE" = (Logtor.New, false) ∧
    Logtor.New.SetLogLevel ERROR = ({ Logtor.New with logLevel := ERROR }, true) :=
  ⟨(setLogLevel_valid_levels_only Logtor.New "VERBOSE").1 (by decide),
   (setLogLevel_valid_levels_only Logtor.New ERROR).2 (by decide)⟩
/-- C8: for a name not registered in the mapping, `ChangeLogCreator` returns
false and leaves the registry (in particular the active sink) unchanged; and
the control-surface operation `ChangeActiveLogCreator`, given such a name in
a well-formed POST, leaves the registry unchanged and answers 200 with the
old active name reported as both the old and the current value. -/
theorem changeLogCreator_unknown_name_unchanged (l : Logtor) (name : String)
    (hname : assocLookup l.logCreatorList name = none) :
    l.ChangeLogCreator name = (l, false) ∧
    (∀ a : LogCreator, l.currentLogCreator = some a →
      l.logCreatorList.isEmpty = false →
      l.ChangeActiveLogCreator "POST" (some [("log_creator", name)]) =
        some (l, HandlerResult.ok a.logName a.logName)) := by
  constructor
  · simp [Logtor.ChangeLogCreator, hname]
  · intro a ha hne
    simp [Logtor.ChangeActiveLogCreator, hne, ha, assocLookup,
      Logtor.ChangeLogCreator, hname]

/-- Witness for C8: on a registry whose only sink is "Console" (active),
activating the unknown name "Nope" fails directly, and through the control
surface it answers 200 reporting "Console" as both old and current, with
the registry unchanged. -/
theorem changeLogCreator_unknown_name_unchanged_witness :
    (Logtor.mk [("Console", consoleSink)] TRACE (some consoleSink)
        none).ChangeLogCreator "Nope" =
      (Logtor.mk [("Console", consoleSink)] TRACE (some consoleSink) none, false) ∧
    (Logtor.mk [("Console", consoleSink)] TRACE (some consoleSink)
        none).ChangeActiveLogCreator "POST" (some [("log_creator", "Nope")]) =
      some (Logtor.mk [("Console", consoleSink)] TRACE (some consoleSink) none,
        HandlerResult.ok "Console" "Console") := by
  have h := changeLogCreator_unknown_name_unchanged
    (Logtor.mk [("Console", consoleSink)] TRACE (some consoleSink) none) "Nope" rfl
  exact ⟨h.1, h.2 consoleSink rfl rfl⟩
/-- C9 (code bug): the claimed discipline does not hold in the code.  The
dispatch `LogIt` takes no lock at all (not the shared lock), `ChangeLogCreator`
writes the active-sink reference holding only the shared read lock (not the
exclusive lock), `AddLogCreators`'s active-sink update likewise runs outside
its exclusive section, and consequently a `LogIt` concurrent with a
`ChangeLogCreator`, or two concurrent `ChangeLogCreator`s, have conflicting
accesses to `currentLogCreator` that no lock mutually excludes. -/
theorem changeMutex_discipline_violated :
    (∀ s ∈ sectionsOf RegistryOp.logIt, s.lock = LockMode.noLock) ∧
    (∃ s ∈ sectionsOf RegistryOp.changeLogCreator,
      s.writesActive = true ∧ s.lock = LockMode.readLock) ∧
    (∃ s ∈ sectionsOf RegistryOp.addLogCreators,
      s.writesActive = true ∧ s.lock ≠ LockMode.writeLock) ∧
    raceFree RegistryOp.logIt RegistryOp.changeLogCreator = false ∧
    raceFree RegistryOp.changeLogCreator RegistryOp.changeLogCreator = false := by
  decide
